import Mathlib

/-!
Shallow embedding of the car-park-admin backend (the express + better-sqlite3
server file).  The four SQLite tables become lists of records, timestamps are
epoch milliseconds (`Int`), and each `/api/...` route handler becomes a Lean
function from the database state and the request parameters to either an error
or the updated state plus the JSON response payload.

Two facts about the source drive the error modelling:

* At the entry route, the whitelist lookup runs
  `db.prepare("SELECT * FROM package_whitelist WHERE plate_number = ?").get()`:
  the prepared statement has one parameter but `.get()` binds none.  With
  better-sqlite3 an execution with an unbound parameter raises
  `RangeError: Too few parameter values were provided` before the query runs;
  express turns the synchronous throw into an HTTP 500 and no later statement
  of the handler executes.  The exit route's vehicle lookup
  `db.prepare("SELECT * FROM vehicles WHERE plate_number = ? AND exit_time IS NULL").get()`
  has the same defect.  Both throws happen before any write, so the state is
  unchanged.  These are modelled by `ApiError.tooFewParams`.

* `CREATE TABLE vehicles` declares `plate_number TEXT UNIQUE`, so an
  `INSERT INTO vehicles` for a plate that already has any row (active or
  historical) raises a constraint error; modelled by
  `ApiError.uniqueViolation`.

The code that follows each defective lookup is translated as well
(`entryCore`, `exitCore`), parameterised by the value the lookup would have
produced, so that the claims about that logic can be settled.
-/

namespace CarParkAdmin

/-- A row of the `spaces` table: `id` (rowid / AUTOINCREMENT), unique `code`
such as "A-001", `status` (`'available'`, `'occupied'`, `'reserved'`; the
reserve route writes the request's string unvalidated, hence `String`), and
`type` (`'normal'` or `'package'`). -/
structure Space where
  id : Nat
  code : String
  status : String
  type : String
deriving DecidableEq, Repr

/-- A row of the `package_whitelist` table (the `id` column is never read by
any route, so it is omitted). -/
structure WhitelistRow where
  plate_number : String
  created_at : Int
  notes : String
deriving DecidableEq, Repr

/-- A row of the `vehicles` table: the occupancy records.  `exit_time IS NULL`
(`none`) marks an active (currently parked) record. -/
structure Vehicle where
  id : Nat
  plate_number : String
  has_package : Bool
  entry_time : Int
  exit_time : Option Int
  space_id : Nat
deriving DecidableEq, Repr

/-- A row of the `logs` table.  `amount` is declared `REAL` but every value
written by the code is an integer (`halfDays * 20` or a seed constant), so it
is modelled as `Int`.  The `id` column is never read, so it is omitted and
append order stands in for it. -/
structure LogEntry where
  plate_number : String
  action : String
  timestamp : Int
  amount : Int
  duration_half_days : Int
deriving DecidableEq, Repr

/-- The whole SQLite database.  Lists are kept in rowid order (insertion
order), which is the order an unordered `SELECT` scans a table in.
`nextVehicleId` models the AUTOINCREMENT counter of `vehicles`. -/
structure DBState where
  spaces : List Space
  package_whitelist : List WhitelistRow
  vehicles : List Vehicle
  logs : List LogEntry
  nextVehicleId : Nat
deriving DecidableEq, Repr

/-- The failure outcomes a route can produce. -/
inductive ApiError where
  /-- better-sqlite3 `RangeError: Too few parameter values were provided`:
  a prepared statement with a `?` placeholder executed with nothing bound.
  Surfaced by express as HTTP 500 before any write of the handler runs. -/
  | tooFewParams
  /-- Entry route HTTP 400: no available space (the LotFull rejection). -/
  | lotFull
  /-- Exit route HTTP 404: no active vehicle row found (the NotParked
  rejection). -/
  | notParked
  /-- SQLite `UNIQUE constraint failed` raised by an INSERT, surfaced as
  HTTP 500 (entry route) or caught and turned into HTTP 400 (whitelist
  route's DuplicateError). -/
  | uniqueViolation
  /-- Whitelist POST route HTTP 400 on a duplicate plate. -/
  | duplicate
deriving DecidableEq, Repr

/-- The constant `1000 * 60 * 60 * 12`: one half-day in milliseconds (exit route). -/
def halfDayMs : Int := 1000 * 60 * 60 * 12

/-- One hour in milliseconds (used by the seed script's offsets). -/
def hourMs : Int := 3600000

/-- The value `Math.ceil(a / b)` for integers `a` and positive `b`, as computed by the
exit route on `durationMs / halfDayMs`: the exact rational ceiling, i.e. the
negated floor division of `-a` by `b`. -/
def jsCeilDiv (a b : Int) : Int := -((-a).fdiv b)

/-! ## Route handlers -/

/-- The whitelist membership query of the entry route:
`SELECT * FROM package_whitelist WHERE plate_number = ?` executed by `.get()`
with no bound parameter.  better-sqlite3 raises
`RangeError: Too few parameter values were provided`, so the handler throws
here on every request; the row it was meant to fetch is never produced. -/
def whitelistLookup (_s : DBState) : Except ApiError (Option WhitelistRow) :=
  Except.error ApiError.tooFewParams

/-- The space-selection logic of the entry route: if `hasPackage`, first
`SELECT id FROM spaces WHERE status = 'available' AND type = 'package' LIMIT 1`;
if that found nothing (or no preference), fall back to
`SELECT id FROM spaces WHERE status = 'available' LIMIT 1`.  Neither query has
an ORDER BY; SQLite serves such a plain table scan in rowid order, so `LIMIT 1`
yields the first matching row of the list. -/
def findAvailable (spaces : List Space) (hasPackage : Bool) : Option Nat :=
  let pkgSpace :=
    if hasPackage then
      spaces.find? (fun sp => sp.status == "available" && sp.type == "package")
    else none
  match pkgSpace with
  | some sp => some sp.id
  | none => (spaces.find? (fun sp => sp.status == "available")).map (fun sp => sp.id)

/-- The entry route's logic after the whitelist lookup, parameterised by the
`hasPackage` flag that lookup was meant to produce: select a space (LotFull
400 when none), `INSERT INTO vehicles` (which raises a UNIQUE-constraint
error if any row, active or historical, already has this plate — schema:
`plate_number TEXT UNIQUE`; the subsequent statements then never run),
mark the space occupied, append an entry log row, and answer
`{spaceId, hasPackage}`. -/
def entryCore (s : DBState) (plateNumber : String) (hasPackage : Bool) (now : Int) :
    Except ApiError (DBState × Nat × Bool) :=
  match findAvailable s.spaces hasPackage with
  | none => Except.error ApiError.lotFull
  | some spaceId =>
    if s.vehicles.any (fun v => v.plate_number == plateNumber) then
      Except.error ApiError.uniqueViolation
    else
      Except.ok
        ({ s with
            vehicles := s.vehicles ++
              [{ id := s.nextVehicleId, plate_number := plateNumber,
                 has_package := hasPackage, entry_time := now,
                 exit_time := none, space_id := spaceId }],
            spaces := s.spaces.map (fun sp =>
              if sp.id == spaceId then { sp with status := "occupied" } else sp),
            logs := s.logs ++
              [{ plate_number := plateNumber, action := "entry", timestamp := now,
                 amount := 0, duration_half_days := 0 }],
            nextVehicleId := s.nextVehicleId + 1 },
         spaceId, hasPackage)

/-- Route `POST /api/entry`: the whitelist lookup throws (unbound parameter), so
the rest of the handler is unreachable and the state is never touched. -/
def apiEntry (s : DBState) (plateNumber : String) (now : Int) :
    Except ApiError (DBState × Nat × Bool) :=
  match whitelistLookup s with
  | Except.error e => Except.error e
  | Except.ok row => entryCore s plateNumber row.isSome now

/-- The exit route's response payload. -/
structure ExitResult where
  amount : Int
  durationHalfDays : Int
  hasPackage : Bool
  entryTime : Int
  exitTime : Int
deriving DecidableEq, Repr

/-- The exit route's logic once a vehicle row is in hand: duration in ms,
`halfDays = Math.ceil(durationMs / halfDayMs)`, `amount = 0` for a package
vehicle and `halfDays * 20` otherwise, then close the record, free the space,
append an exit log row and answer the fee summary. -/
def exitCore (s : DBState) (vehicle : Vehicle) (plateNumber : String) (now : Int) :
    DBState × ExitResult :=
  let durationMs : Int := now - vehicle.entry_time
  let halfDays : Int := jsCeilDiv durationMs halfDayMs
  let amount : Int := if vehicle.has_package then 0 else halfDays * 20
  ({ s with
      vehicles := s.vehicles.map (fun w =>
        if w.id == vehicle.id then { w with exit_time := some now } else w),
      spaces := s.spaces.map (fun sp =>
        if sp.id == vehicle.space_id then { sp with status := "available" } else sp),
      logs := s.logs ++
        [{ plate_number := plateNumber, action := "exit", timestamp := now,
           amount := amount, duration_half_days := halfDays }] },
   { amount := amount, durationHalfDays := halfDays,
     hasPackage := vehicle.has_package, entryTime := vehicle.entry_time,
     exitTime := now })

/-- The active-vehicle query of the exit route:
`SELECT * FROM vehicles WHERE plate_number = ? AND exit_time IS NULL` executed
by `.get()` with no bound parameter — the same better-sqlite3
`RangeError: Too few parameter values were provided` as at the entry route. -/
def vehicleLookup (_s : DBState) : Except ApiError (Option Vehicle) :=
  Except.error ApiError.tooFewParams

/-- The exit route's branch on the lookup result: no row means the 404
NotParked rejection (nothing mutated, nothing logged); a row proceeds to
`exitCore`. -/
def exitAfterLookup (s : DBState) (vo : Option Vehicle) (plateNumber : String)
    (now : Int) : Except ApiError (DBState × ExitResult) :=
  match vo with
  | none => Except.error ApiError.notParked
  | some v => Except.ok (exitCore s v plateNumber now)

/-- Route `POST /api/exit`: the vehicle lookup throws (unbound parameter), so the
NotParked branch, the fee computation and all writes are unreachable. -/
def apiExit (s : DBState) (plateNumber : String) (now : Int) :
    Except ApiError (DBState × ExitResult) :=
  match vehicleLookup s with
  | Except.error e => Except.error e
  | Except.ok vo => exitAfterLookup s vo plateNumber now

/-- Route `POST /api/whitelist`: `INSERT INTO package_whitelist (plate_number, notes)`;
the UNIQUE constraint on `plate_number` makes a duplicate insert throw, which
the handler catches and answers as an HTTP 400 duplicate error with no state
change.  `created_at` defaults to the current timestamp. -/
def apiWhitelistAdd (s : DBState) (plateNumber notes : String) (now : Int) :
    Except ApiError DBState :=
  if s.package_whitelist.any (fun w => w.plate_number == plateNumber) then
    Except.error ApiError.duplicate
  else
    Except.ok { s with package_whitelist := s.package_whitelist ++
      [{ plate_number := plateNumber, created_at := now, notes := notes }] }

/-- Route `DELETE /api/whitelist/:plate`: unconditional
`DELETE FROM package_whitelist WHERE plate_number = ?` (plate bound), always
answered with success — idempotent. -/
def apiWhitelistRemove (s : DBState) (plate : String) : DBState :=
  { s with package_whitelist :=
      s.package_whitelist.filter (fun w => !(w.plate_number == plate)) }

/-- Route `POST /api/reserve`: `UPDATE spaces SET status = ? WHERE id = ?` with the
request's `status` and `spaceId` bound.  No precondition is checked — the
current status (including `'occupied'`) is overwritten unconditionally and
the handler always answers success. -/
def apiReserve (s : DBState) (spaceId : Nat) (status : String) : DBState :=
  { s with spaces := s.spaces.map (fun sp =>
      if sp.id == spaceId then { sp with status := status } else sp) }

/-! ## Read-model helpers (the stats / list queries, and the spec's
predicates used to state claims) -/

/-- The query `SELECT COUNT(*) FROM spaces WHERE status = 'occupied'` (stats route). -/
def occupiedCount (s : DBState) : Nat :=
  s.spaces.countP (fun sp => sp.status == "occupied")

/-- The number of active occupancy records (`exit_time IS NULL`), the count
the vehicles route's `WHERE v.exit_time IS NULL` filter selects. -/
def activeCount (s : DBState) : Nat :=
  s.vehicles.countP (fun v => v.exit_time.isNone)

/-- The status of the space with a given id (`SELECT` from `spaces` by id). -/
def statusOf (s : DBState) (spaceId : Nat) : Option String :=
  (s.spaces.find? (fun sp => sp.id == spaceId)).map (fun sp => sp.status)

/-- Modelled from the spec: `isWhitelisted(plate)` — true iff a
`WhitelistEntry` exists for `plate`.  This is the line the entry route's
comment announces ("Check if plate is in whitelist") and what its query would
compute with the plate actually bound; the shipped code binds nothing. -/
def isWhitelistedSpec (s : DBState) (plate : String) : Bool :=
  s.package_whitelist.any (fun w => w.plate_number == plate)

/-- Whether an active occupancy record for `plate` exists (the spec's
"Parked" state; the WHERE clause of the exit route's query with the plate
actually bound). -/
def hasActiveRecord (s : DBState) (plate : String) : Bool :=
  s.vehicles.any (fun v => v.plate_number == plate && v.exit_time.isNone)

/-! ## The seeded initial state (the bootstrap block of the server file) -/

/-- The seed's `i.toString().padStart(3, '0')` space-code padding. -/
def pad3 (n : Nat) : String :=
  let s := toString n
  if s.length ≥ 3 then s else if s.length = 2 then "0" ++ s else "00" ++ s

/-- Epoch milliseconds of the seed script's hard-coded
`new Date('2026-02-27T22:33:18-08:00')`, i.e. 2026-02-28T06:33:18Z. -/
def seedNow : Int := 1772260398000

/-- The 50 seeded spaces: ids 1..50, codes "A-001".."A-050", the first 15 of
type `'package'`, the rest `'normal'`, all initially `'available'`. -/
def seedSpaces : List Space :=
  (List.range 50).map (fun i =>
    { id := i + 1, code := "A-" ++ pad3 (i + 1),
      status := "available",
      type := if i + 1 ≤ 15 then "package" else "normal" })

/-- The four seeded whitelist rows.  (`created_at` is `CURRENT_TIMESTAMP` at
bootstrap; it is never read by any modelled operation, so the seed's
reference time stands in for it.) -/
def seedWhitelist : List WhitelistRow :=
  [ { plate_number := "粤B88888", created_at := seedNow, notes := "VIP游客 - 张先生" },
    { plate_number := "京A00001", created_at := seedNow, notes := "长期合作旅行社" },
    { plate_number := "沪C66666", created_at := seedNow, notes := "景区合作伙伴" },
    { plate_number := "浙A12345", created_at := seedNow, notes := "家庭套餐 - 李女士" } ]

/-- The four seeded active vehicles (entered 2, 5, 1 and 8 hours before the
seed's reference time, in spaces 1, 2, 16 and 17). -/
def seedVehicles : List Vehicle :=
  [ { id := 1, plate_number := "粤B88888", has_package := true,
      entry_time := seedNow - 2 * hourMs, exit_time := none, space_id := 1 },
    { id := 2, plate_number := "京A00001", has_package := true,
      entry_time := seedNow - 5 * hourMs, exit_time := none, space_id := 2 },
    { id := 3, plate_number := "苏E99999", has_package := false,
      entry_time := seedNow - 1 * hourMs, exit_time := none, space_id := 16 },
    { id := 4, plate_number := "川A77777", has_package := false,
      entry_time := seedNow - 8 * hourMs, exit_time := none, space_id := 17 } ]

/-- The seeded log rows: one entry row per seeded active vehicle, then the
six historical entry/exit rows. -/
def seedLogs : List LogEntry :=
  [ { plate_number := "粤B88888", action := "entry", timestamp := seedNow - 2 * hourMs,
      amount := 0, duration_half_days := 0 },
    { plate_number := "京A00001", action := "entry", timestamp := seedNow - 5 * hourMs,
      amount := 0, duration_half_days := 0 },
    { plate_number := "苏E99999", action := "entry", timestamp := seedNow - 1 * hourMs,
      amount := 0, duration_half_days := 0 },
    { plate_number := "川A77777", action := "entry", timestamp := seedNow - 8 * hourMs,
      amount := 0, duration_half_days := 0 },
    { plate_number := "粤B12345", action := "entry", timestamp := seedNow - 24 * hourMs,
      amount := 0, duration_half_days := 0 },
    { plate_number := "粤B12345", action := "exit", timestamp := seedNow - 12 * hourMs,
      amount := 20, duration_half_days := 1 },
    { plate_number := "京A88888", action := "entry", timestamp := seedNow - 48 * hourMs,
      amount := 0, duration_half_days := 0 },
    { plate_number := "京A88888", action := "exit", timestamp := seedNow - 36 * hourMs,
      amount := 40, duration_half_days := 2 },
    { plate_number := "沪A66666", action := "entry", timestamp := seedNow - 10 * hourMs,
      amount := 0, duration_half_days := 0 },
    { plate_number := "沪A66666", action := "exit", timestamp := seedNow - 2 * hourMs,
      amount := 20, duration_half_days := 1 } ]

/-- The database right after the bootstrap block: the 50 spaces with 1, 2,
16 and 17 marked occupied by the seeded vehicles, the whitelist, the four
active vehicle rows (next rowid 5) and the seeded logs. -/
def seededState : DBState :=
  { spaces := seedSpaces.map (fun sp =>
      if sp.id == 1 || sp.id == 2 || sp.id == 16 || sp.id == 17 then
        { sp with status := "occupied" }
      else sp),
    package_whitelist := seedWhitelist,
    vehicles := seedVehicles,
    logs := seedLogs,
    nextVehicleId := 5 }

/-! ## Derived states used by the claims -/

/-- The seeded state with vehicle 3 (`苏E99999`)'s record closed and its
space 16 freed: a state in which every occupancy record of that plate has
its exit timestamp set while the historical row is retained. -/
def closedState : DBState :=
  { seededState with
      vehicles := seededState.vehicles.map (fun v =>
        if v.id == 3 then { v with exit_time := some seedNow } else v),
      spaces := seededState.spaces.map (fun sp =>
        if sp.id == 16 then { sp with status := "available" } else sp) }

/-- The seeded state with all 50 spaces marked occupied (the exhaustion
scenario of the spec). -/
def fullState : DBState :=
  { seededState with
      spaces := seededState.spaces.map (fun sp => { sp with status := "occupied" }) }

/-! ## The five public operations as one step relation (for the
reachability claim) -/

/-- One request against the five mutating routes. -/
inductive Op where
  | entryOp (plate : String) (now : Int)
  | exitOp (plate : String) (now : Int)
  | wlAddOp (plate notes : String) (now : Int)
  | wlRemoveOp (plate : String)
  | reserveOp (spaceId : Nat) (status : String)
deriving DecidableEq, Repr

/-- The database state after serving one request: a route that answers an
error has thrown before any write (entry, exit) or rolled back an atomic
insert (whitelist add), so it leaves the state unchanged. -/
def applyOp (s : DBState) : Op → DBState
  | Op.entryOp p t =>
      match apiEntry s p t with
      | Except.ok (s', _, _) => s'
      | Except.error _ => s
  | Op.exitOp p t =>
      match apiExit s p t with
      | Except.ok (s', _) => s'
      | Except.error _ => s
  | Op.wlAddOp p n t =>
      match apiWhitelistAdd s p n t with
      | Except.ok s' => s'
      | Except.error _ => s
  | Op.wlRemoveOp p => apiWhitelistRemove s p
  | Op.reserveOp spaceId status => apiReserve s spaceId status

/-- Serving a sequence of requests. -/
def run (s : DBState) (ops : List Op) : DBState := ops.foldl applyOp s

/-- Whether a request respects the spec's reservation-toggle contract in the
state it is served in: the toggle only carries a target status of
`available` or `reserved` and is never aimed at a space that is currently
occupied.  Every other request is unrestricted. -/
def legalOp (s : DBState) : Op → Bool
  | Op.reserveOp spaceId status =>
      (status == "available" || status == "reserved") &&
        s.spaces.all (fun sp => sp.id != spaceId || sp.status != "occupied")
  | _ => true

/-- Whether every request of a sequence is legal in the state it is served
in. -/
def legalRun : DBState → List Op → Bool
  | _, [] => true
  | s, op :: rest => legalOp s op && legalRun (applyOp s op) rest

/-! ## The spec's selection policy, for comparison with `findAvailable` -/

/-- The least element of a list of natural numbers. -/
def listMinNat : List Nat → Option Nat
  | [] => none
  | a :: l =>
    match listMinNat l with
    | none => some a
    | some b => some (min a b)

/-- Modelled from the spec: `findAvailable(preferType?)` as §4.2 words it —
with a package preference and at least one available package-type space,
select the lowest-id available package-type space; otherwise (no preference,
or no such space) select the lowest-id available space of any type; `none`
when nothing is available. -/
def findAvailableSpec (spaces : List Space) (preferPackage : Bool) : Option Nat :=
  let pkg := spaces.filter (fun sp => sp.status == "available" && sp.type == "package")
  let anyAvail := spaces.filter (fun sp => sp.status == "available")
  if preferPackage && !pkg.isEmpty then listMinNat (pkg.map (fun sp => sp.id))
  else listMinNat (anyAvail.map (fun sp => sp.id))

/-- A three-space inventory exercising the preference chain: space 1 is a
taken package space, space 2 an available normal space, space 3 an available
package space. -/
def demoSpaces : List Space :=
  [ { id := 1, code := "A-001", status := "occupied", type := "package" },
    { id := 2, code := "A-002", status := "available", type := "normal" },
    { id := 3, code := "A-003", status := "available", type := "package" } ]

/-!
# Theorems

First the general-purpose lemmas shared by several developments, then one
theorem (plus witness / counterexample where required) per claim.
-/

/-- C1: the claim says the `hasPackage` flag computed at entry is true iff a
whitelist entry for that exact plate exists.  The code never computes any
such flag: the whitelist lookup executes its statement with the `?`
parameter unbound, so every `POST /api/entry` — including one for the seeded
whitelisted plate `粤B88888` — fails with the better-sqlite3 parameter error
before a flag, a record or a response is produced. -/
theorem c1_hasPackage_never_computed :
    isWhitelistedSpec seededState "粤B88888" = true ∧
    (∀ (s : DBState) (p : String) (t : Int),
      apiEntry s p t = Except.error ApiError.tooFewParams) :=
  ⟨by decide, fun _ _ _ => rfl⟩

/-- C2: the claim says a plate whose visits have all ended can re-enter
whenever a space is available.  In `closedState` every record of `苏E99999`
is closed and both space queries would find a space, yet (a) every entry
call fails at the unbound whitelist lookup, and (b) even the post-lookup
entry logic rejects the returning plate: its retained historical row makes
the `INSERT INTO vehicles` violate the schema's `plate_number TEXT UNIQUE`
constraint, for either value of the package flag. -/
theorem c2_reentry_blocked :
    closedState.vehicles.all
      (fun v => v.plate_number != "苏E99999" || v.exit_time.isSome) = true ∧
    (findAvailable closedState.spaces false).isSome = true ∧
    (findAvailable closedState.spaces true).isSome = true ∧
    (∀ t, apiEntry closedState "苏E99999" t = Except.error ApiError.tooFewParams) ∧
    (∀ hp t, entryCore closedState "苏E99999" hp t = Except.error ApiError.uniqueViolation) := by
  refine ⟨by decide, by decide, by decide, fun t => rfl, fun hp t => ?_⟩
  cases hp <;> rfl

/-- C5: the claim says exiting a parked vehicle yields
`halfDays = ceil(d / 12h)` and `amount = halfDays * 20` (0 for package
vehicles), e.g. 13 hours gives 2 and 40.  The exit route throws at its
unbound vehicle lookup on every call — also for the parked seeded vehicle
`苏E99999` — so no fee is ever computed, returned or logged; the fee code it
guards (translated as `exitCore`) does match the claimed arithmetic at the
13-hour example. -/
theorem c5_fee_formula_dead_code :
    hasActiveRecord seededState "苏E99999" = true ∧
    (∀ t, apiExit seededState "苏E99999" t = Except.error ApiError.tooFewParams) ∧
    (exitCore seededState
        { id := 3, plate_number := "苏E99999", has_package := false,
          entry_time := seedNow - hourMs, exit_time := none, space_id := 16 }
        "苏E99999" (seedNow - hourMs + 13 * hourMs)).2.durationHalfDays = 2 ∧
    (exitCore seededState
        { id := 3, plate_number := "苏E99999", has_package := false,
          entry_time := seedNow - hourMs, exit_time := none, space_id := 16 }
        "苏E99999" (seedNow - hourMs + 13 * hourMs)).2.amount = 40 ∧
    (exitCore seededState
        { id := 1, plate_number := "粤B88888", has_package := true,
          entry_time := seedNow - 2 * hourMs, exit_time := none, space_id := 1 }
        "粤B88888" (seedNow - 2 * hourMs + 13 * hourMs)).2.amount = 0 :=
  ⟨by decide, fun _ => rfl, by decide, by decide, by decide⟩

/-- C6: the claim says an entry with no available space fails with the
LotFull error and no mutation.  With all 50 seeded spaces occupied the space
queries would indeed find nothing, but every entry call fails earlier, at
the unbound whitelist lookup (HTTP 500, not the LotFull 400), with no
mutation; the post-lookup logic (`entryCore`) does answer LotFull with no
mutation in that state. -/
theorem c6_lotfull_dead_code :
    (∀ hp, findAvailable fullState.spaces hp = none) ∧
    (∀ (p : String) (t : Int), apiEntry fullState p t = Except.error ApiError.tooFewParams) ∧
    (∀ (p : String) (hp : Bool) (t : Int),
      entryCore fullState p hp t = Except.error ApiError.lotFull) :=
  ⟨fun hp => by cases hp <;> rfl, fun _ _ => rfl, fun _ hp _ => by cases hp <;> rfl⟩

/-- C7: the claim says an exit for a plate with no active record fails with
the NotParked error, mutating and logging nothing.  The exit route fails on
every call — also for the never-parked plate `闽D00000` — but with the
unbound-parameter error (HTTP 500), not the NotParked 404: its vehicle
lookup never receives the plate, so the NotParked branch (which does fire on
a missing record, with no side effects, in the post-lookup logic) is dead
code. -/
theorem c7_notparked_dead_code :
    hasActiveRecord seededState "闽D00000" = false ∧
    (∀ t, apiExit seededState "闽D00000" t = Except.error ApiError.tooFewParams) ∧
    (∀ (s : DBState) (p : String) (t : Int),
      exitAfterLookup s none p t = Except.error ApiError.notParked) :=
  ⟨by decide, fun _ => rfl, fun _ _ _ => rfl⟩

/-- C3 counterexample: the reservation route applied to the occupied seeded
space 1 does not fail and does not leave the space unchanged — it succeeds
and flips the status from `occupied` to the requested `available`. -/
theorem c3_reserve_counterexample :
    statusOf seededState 1 = some "occupied" ∧
    statusOf (apiReserve seededState 1 "available") 1 = some "available" :=
  ⟨by decide, by decide⟩

/-- C3 amended: `POST /api/reserve` validates nothing — for every state,
target id and requested status string, the call succeeds and unconditionally
overwrites the status of every space with that id (occupied or not), leaving
all other spaces untouched; no InvalidTransition error exists. -/
theorem c3_reserve_unconditional (s : DBState) (spaceId : Nat) (status : String)
    (sp : Space) (hmem : sp ∈ (apiReserve s spaceId status).spaces) :
    (sp.id = spaceId → sp.status = status) ∧ (sp.id ≠ spaceId → sp ∈ s.spaces) := by
  rcases List.mem_map.mp hmem with ⟨a, ha, hfa⟩
  subst hfa
  by_cases h : a.id = spaceId
  · simp [h]
  · simp [h, ha]

/-- C3 amended, witness: in the seeded state the occupied package space 1,
once the operator requests `available` for it, appears in the inventory with
status `available`. -/
theorem c3_reserve_unconditional_witness :
    ((⟨1, "A-001", "available", "package"⟩ : Space).id = 1 →
      (⟨1, "A-001", "available", "package"⟩ : Space).status = "available") ∧
    ((⟨1, "A-001", "available", "package"⟩ : Space).id ≠ 1 →
      (⟨1, "A-001", "available", "package"⟩ : Space) ∈ seededState.spaces) :=
  c3_reserve_unconditional seededState 1 "available"
    ⟨1, "A-001", "available", "package"⟩ (by decide)

/-- C4 counterexample: the seeded state satisfies the occupancy invariant
(4 occupied spaces, 4 active records), but one reachable step — the
reservation toggle aimed at the occupied space 1 — breaks it (3 occupied
spaces, still 4 active records). -/
theorem c4_invariant_counterexample :
    occupiedCount seededState = activeCount seededState ∧
    occupiedCount (run seededState [Op.reserveOp 1 "available"]) ≠
      activeCount (run seededState [Op.reserveOp 1 "available"]) :=
  ⟨by decide, by decide⟩

/-- C10 counterexample: for the parked, non-package seeded vehicle
`苏E99999` and an exit wall-clock one hour before its recorded entry
(negative duration), the claim says the call returns and logs
`halfDays * 20 ≤ 0`; in fact the exit route throws at its unbound vehicle
lookup, so no amount — negative or otherwise — is returned or recorded by
any exit call. -/
theorem c10_negative_fee_counterexample :
    hasActiveRecord seededState "苏E99999" = true ∧
    (seedNow - 2 * hourMs) - (seedNow - hourMs) < 0 ∧
    apiExit seededState "苏E99999" (seedNow - 2 * hourMs) =
      Except.error ApiError.tooFewParams ∧
    (∀ (s : DBState) (p : String) (t : Int),
      apiExit s p t = Except.error ApiError.tooFewParams) :=
  ⟨by decide, by decide, rfl, fun _ _ _ => rfl⟩

/-- Relabelling spaces whose current status is not `occupied` with a status
other than `occupied` leaves the occupied-space count unchanged. -/
theorem countP_occupied_update (l : List Space) (spaceId : Nat) (status : String)
    (hst : status ≠ "occupied")
    (h : ∀ sp ∈ l, sp.id = spaceId → sp.status ≠ "occupied") :
    (l.map (fun sp =>
        if sp.id == spaceId then { sp with status := status } else sp)).countP
      (fun sp => sp.status == "occupied") =
    l.countP (fun sp => sp.status == "occupied") := by
  induction l with
  | nil => rfl
  | cons a l ih =>
    have ha := h a (List.mem_cons_self a l)
    have htail : ∀ sp ∈ l, sp.id = spaceId → sp.status ≠ "occupied" :=
      fun sp hsp => h sp (List.mem_cons_of_mem a hsp)
    rw [List.map_cons, List.countP_cons, List.countP_cons, ih htail]
    congr 1
    by_cases hid : a.id = spaceId
    · have h1 : (status == "occupied") = false := beq_eq_false_iff_ne.mpr hst
      have h2 : (a.status == "occupied") = false := beq_eq_false_iff_ne.mpr (ha hid)
      have hbid : (a.id == spaceId) = true := beq_iff_eq.mpr hid
      simp [hbid, h1, h2]
    · have h3 : (a.id == spaceId) = false := beq_eq_false_iff_ne.mpr hid
      simp [h3]

/-- Serving one request that respects the reservation-toggle contract
preserves the equality of occupied-space count and active-record count. -/
theorem applyOp_preserves_invariant (s : DBState) (op : Op)
    (hinv : occupiedCount s = activeCount s) (hleg : legalOp s op = true) :
    occupiedCount (applyOp s op) = activeCount (applyOp s op) := by
  cases op with
  | entryOp p t => exact hinv
  | exitOp p t => exact hinv
  | wlAddOp p n t =>
    by_cases hc : (s.package_whitelist.any (fun w => w.plate_number == p)) = true
    · simpa [applyOp, apiWhitelistAdd, hc, occupiedCount, activeCount] using hinv
    · simpa [applyOp, apiWhitelistAdd, hc, occupiedCount, activeCount] using hinv
  | wlRemoveOp p => exact hinv
  | reserveOp spaceId status =>
    have hs : (status == "available" || status == "reserved") = true := by
      simp only [legalOp, Bool.and_eq_true] at hleg
      exact hleg.1
    have hall : (s.spaces.all fun sp => sp.id != spaceId || sp.status != "occupied") = true := by
      simp only [legalOp, Bool.and_eq_true] at hleg
      exact hleg.2
    have hst : status ≠ "occupied" := by
      intro hcontra
      subst hcontra
      exact absurd hs (by decide)
    have hocc : ∀ sp ∈ s.spaces, sp.id = spaceId → sp.status ≠ "occupied" := by
      intro sp hsp hid
      have hsp' := List.all_eq_true.mp hall sp hsp
      simp only [Bool.or_eq_true] at hsp'
      rcases hsp' with h1 | h1
      · exact absurd hid (by simpa using h1)
      · simpa using h1
    show occupiedCount (apiReserve s spaceId status) = activeCount (apiReserve s spaceId status)
    have hkeep : occupiedCount (apiReserve s spaceId status) = occupiedCount s :=
      countP_occupied_update s.spaces spaceId status hst hocc
    rw [hkeep]
    exact hinv

/-- C4 amended: in every state reached from a state satisfying the
occupancy invariant by a sequence of the five public operations in which
the reservation toggle always carries a status of `available` or `reserved`
and is never aimed at a currently occupied space, the number of
status-occupied spaces equals the number of exit-unset occupancy records.
(The unrestricted toggle breaks the invariant — see the counterexample.) -/
theorem c4_invariant_amended (s : DBState) (ops : List Op)
    (hinv : occupiedCount s = activeCount s) (hleg : legalRun s ops = true) :
    occupiedCount (run s ops) = activeCount (run s ops) := by
  induction ops generalizing s with
  | nil => exact hinv
  | cons op rest ih =>
    have hsplit : legalOp s op = true ∧ legalRun (applyOp s op) rest = true := by
      simpa [legalRun, Bool.and_eq_true] using hleg
    exact ih (applyOp s op) (applyOp_preserves_invariant s op hinv hsplit.1) hsplit.2

/-- C4 amended, witness: from the seeded state, a whitelist removal, a legal
reservation of the free space 20, a (failing) entry and a (failing) exit
leave the occupancy invariant intact. -/
theorem c4_invariant_amended_witness :
    occupiedCount (run seededState
      [Op.wlRemoveOp "粤B88888", Op.reserveOp 20 "reserved",
       Op.entryOp "NEW-001" seedNow, Op.exitOp "粤B88888" seedNow]) =
    activeCount (run seededState
      [Op.wlRemoveOp "粤B88888", Op.reserveOp 20 "reserved",
       Op.entryOp "NEW-001" seedNow, Op.exitOp "粤B88888" seedNow]) :=
  c4_invariant_amended seededState _ (by decide) (by decide)

/-- A value returned by `listMinNat` is an element of the list. -/
theorem listMinNat_mem {l : List Nat} {b : Nat} (h : listMinNat l = some b) : b ∈ l := by
  induction l generalizing b with
  | nil => cases h
  | cons a l ih =>
    unfold listMinNat at h
    cases hm : listMinNat l with
    | none =>
      rw [hm] at h
      injection h with h
      subst h
      exact List.mem_cons_self a l
    | some c =>
      rw [hm] at h
      injection h with h
      subst h
      by_cases hac : a ≤ c
      · rw [Nat.min_eq_left hac]
        exact List.mem_cons_self a l
      · rw [Nat.min_eq_right (Nat.le_of_not_le hac)]
        exact List.mem_cons_of_mem a (ih hm)

/-- Applying `listMinNat` to a list headed by a lower bound gives that head. -/
theorem listMinNat_cons_of_le {a : Nat} {xs : List Nat} (h : ∀ x ∈ xs, a ≤ x) :
    listMinNat (a :: xs) = some a := by
  cases hm : listMinNat xs with
  | none => simp [listMinNat, hm]
  | some b =>
    have hb : a ≤ b := h b (listMinNat_mem hm)
    simp [listMinNat, hm, Nat.min_eq_left hb]

/-- On a list strictly sorted by id, taking the first row matching a
predicate (an unordered `SELECT ... LIMIT 1` table scan) returns the same
identifier as taking the least id among all matching rows. -/
theorem find?_id_eq_listMinNat (p : Space → Bool) (l : List Space)
    (hl : List.Pairwise (fun a b => a.id < b.id) l) :
    (l.find? p).map (fun sp => sp.id) =
      listMinNat ((l.filter p).map (fun sp => sp.id)) := by
  induction hl with
  | nil => rfl
  | @cons a l ha _hl ih =>
    cases hpa : p a with
    | true =>
      rw [List.find?_cons_of_pos _ hpa, List.filter_cons_of_pos hpa, List.map_cons]
      symm
      apply listMinNat_cons_of_le
      intro x hx
      rcases List.mem_map.mp hx with ⟨sp, hsp, rfl⟩
      exact Nat.le_of_lt (ha sp (List.mem_of_mem_filter hsp))
    | false =>
      rw [List.find?_cons_of_neg _ (by simp [hpa]), List.filter_cons_of_neg (by simp [hpa])]
      exact ih

/-- C8: on an inventory whose rows are strictly sorted by identifier (true
of the seeded table, and row order never changes afterwards since spaces
are only updated in place), the entry route's selection logic agrees with
the spec's policy: with a package preference and an available package-type
space it picks the lowest-id such space, otherwise it falls back to the
lowest-id available space of any type, `none` exactly when nothing is
available — a deterministic function of the inventory. -/
theorem c8_findAvailable_policy (l : List Space)
    (hl : List.Pairwise (fun a b => a.id < b.id) l) (hp : Bool) :
    findAvailable l hp = findAvailableSpec l hp := by
  cases hp with
  | false =>
    simpa [findAvailable, findAvailableSpec] using
      find?_id_eq_listMinNat (fun sp => sp.status == "available") l hl
  | true =>
    cases hfp : l.find? (fun sp => sp.status == "available" && sp.type == "package") with
    | some sp =>
      have hpsp := List.find?_some hfp
      have hmem : sp ∈ l.filter (fun x => x.status == "available" && x.type == "package") :=
        List.mem_filter.mpr ⟨List.mem_of_find?_eq_some hfp, hpsp⟩
      have hie : (l.filter
          (fun sp => sp.status == "available" && sp.type == "package")).isEmpty = false := by
        cases hpkg : l.filter (fun sp => sp.status == "available" && sp.type == "package") with
        | nil => rw [hpkg] at hmem; cases hmem
        | cons x xs => rfl
      have key := find?_id_eq_listMinNat
        (fun sp => sp.status == "available" && sp.type == "package") l hl
      rw [hfp] at key
      simpa [findAvailable, findAvailableSpec, hfp, hie] using key
    | none =>
      have hnil : l.filter (fun sp => sp.status == "available" && sp.type == "package") = [] :=
        List.filter_eq_nil_iff.mpr (fun a ha => by
          simpa using List.find?_eq_none.mp hfp a ha)
      have key := find?_id_eq_listMinNat (fun sp => sp.status == "available") l hl
      simpa [findAvailable, findAvailableSpec, hfp, hnil] using key

/-- C8 witness: on the three-space demo inventory (sorted by id), the code's
selection equals the spec's policy; a package preference picks the available
package space 3 over the lower-id normal space 2, and without the
preference the lowest-id available space 2 is picked. -/
theorem c8_findAvailable_policy_witness :
    findAvailable demoSpaces true = findAvailableSpec demoSpaces true ∧
    findAvailable demoSpaces true = some 3 ∧
    findAvailable demoSpaces false = some 2 :=
  ⟨c8_findAvailable_policy demoSpaces (by decide) true, by decide, by decide⟩

/-- C9: exit billing cannot observe the whitelist.  Whitelist add/remove
requests touch only the `package_whitelist` table (never vehicles, spaces or
logs), the exit route's result is the same on any two states that agree
outside the whitelist, and the exit fee logic (`exitCore`) reads only the
`has_package` flag stored on the vehicle row at entry: its response and its
writes to vehicles, spaces and logs are identical across such states.
Hence two runs differing only in whitelist operations between a vehicle's
entry and its exit get identical exit outcomes. -/
theorem c9_billing_snapshot :
    (∀ (s : DBState) (p n : String) (t : Int) (s' : DBState),
        apiWhitelistAdd s p n t = Except.ok s' →
          s'.vehicles = s.vehicles ∧ s'.spaces = s.spaces ∧ s'.logs = s.logs) ∧
    (∀ (s : DBState) (p : String),
        (apiWhitelistRemove s p).vehicles = s.vehicles ∧
        (apiWhitelistRemove s p).spaces = s.spaces ∧
        (apiWhitelistRemove s p).logs = s.logs) ∧
    (∀ (s₁ s₂ : DBState) (p : String) (t : Int),
        s₁.vehicles = s₂.vehicles → s₁.spaces = s₂.spaces → s₁.logs = s₂.logs →
          apiExit s₁ p t = apiExit s₂ p t) ∧
    (∀ (s₁ s₂ : DBState) (v : Vehicle) (p : String) (t : Int),
        s₁.vehicles = s₂.vehicles → s₁.spaces = s₂.spaces → s₁.logs = s₂.logs →
          (exitCore s₁ v p t).2 = (exitCore s₂ v p t).2 ∧
          (exitCore s₁ v p t).1.vehicles = (exitCore s₂ v p t).1.vehicles ∧
          (exitCore s₁ v p t).1.spaces = (exitCore s₂ v p t).1.spaces ∧
          (exitCore s₁ v p t).1.logs = (exitCore s₂ v p t).1.logs) := by
  refine ⟨?_, ?_, ?_, ?_⟩
  · intro s p n t s' h
    by_cases hc : (s.package_whitelist.any (fun w => w.plate_number == p)) = true
    · simp [apiWhitelistAdd, hc] at h
    · simp only [apiWhitelistAdd, hc, if_neg, Bool.false_eq_true, not_false_iff,
        if_false, Except.ok.injEq] at h
      subst h
      exact ⟨rfl, rfl, rfl⟩
  · intro s p
    exact ⟨rfl, rfl, rfl⟩
  · intro s₁ s₂ p t _ _ _
    rfl
  · intro s₁ s₂ v p t h1 h2 h3
    refine ⟨rfl, ?_, ?_, ?_⟩
    · show s₁.vehicles.map _ = s₂.vehicles.map _
      rw [h1]
    · show s₁.spaces.map _ = s₂.spaces.map _
      rw [h2]
    · show s₁.logs ++ _ = s₂.logs ++ _
      rw [h3]

/-- C9 witness: exiting the seeded vehicle 3 produces byte-identical fee
results on the seeded state and on the same state with the entire whitelist
deleted mid-stay. -/
theorem c9_billing_snapshot_witness :
    (exitCore seededState
        { id := 3, plate_number := "苏E99999", has_package := false,
          entry_time := seedNow - hourMs, exit_time := none, space_id := 16 }
        "苏E99999" seedNow).2 =
    (exitCore { seededState with package_whitelist := [] }
        { id := 3, plate_number := "苏E99999", has_package := false,
          entry_time := seedNow - hourMs, exit_time := none, space_id := 16 }
        "苏E99999" seedNow).2 :=
  (c9_billing_snapshot.2.2.2 seededState { seededState with package_whitelist := [] }
      { id := 3, plate_number := "苏E99999", has_package := false,
        entry_time := seedNow - hourMs, exit_time := none, space_id := 16 }
      "苏E99999" seedNow rfl rfl rfl).1

/-- C10 amended: the exit route never reaches its fee computation (its
vehicle lookup throws on every call — see the counterexample), so no fee,
negative or otherwise, is ever returned or recorded; the fee code itself
(`exitCore`, translating the route's arithmetic) indeed has no
negative-duration guard: with a recorded entry time later than the exit
wall-clock, a non-package vehicle's computed amount is exactly
`halfDays * 20` with `halfDays ≤ 0`, a non-positive fee that the (dead)
code would also have appended to the log. -/
theorem c10_negative_fee_amended (s : DBState) (v : Vehicle) (p : String) (t : Int)
    (hpkg : v.has_package = false) (hneg : t - v.entry_time < 0) :
    (exitCore s v p t).2.durationHalfDays ≤ 0 ∧
    (exitCore s v p t).2.amount = (exitCore s v p t).2.durationHalfDays * 20 ∧
    (exitCore s v p t).2.amount ≤ 0 ∧
    (exitCore s v p t).1.logs = s.logs ++
      [{ plate_number := p, action := "exit", timestamp := t,
         amount := (exitCore s v p t).2.amount,
         duration_half_days := (exitCore s v p t).2.durationHalfDays }] := by
  have hhd : jsCeilDiv (t - v.entry_time) halfDayMs ≤ 0 := by
    have h1 : (0:Int) ≤ -(t - v.entry_time) := by omega
    have h2 : (0:Int) ≤ halfDayMs := by decide
    have h3 := Int.fdiv_nonneg h1 h2
    unfold jsCeilDiv
    omega
  have hamount : (exitCore s v p t).2.amount =
      jsCeilDiv (t - v.entry_time) halfDayMs * 20 := by
    show (if v.has_package then 0 else jsCeilDiv (t - v.entry_time) halfDayMs * 20) = _
    rw [hpkg]
    rfl
  refine ⟨hhd, hamount, ?_, rfl⟩
  rw [hamount]
  omega

/-- C10 amended, witness: a non-package record entered at the seed's
reference time, "exited" three hours earlier, yields zero half-days and a
non-positive amount equal to `halfDays * 20` in the dead fee code. -/
theorem c10_negative_fee_amended_witness :
    (exitCore seededState
        { id := 9, plate_number := "测A00009", has_package := false,
          entry_time := seedNow, exit_time := none, space_id := 20 }
        "测A00009" (seedNow - 3 * hourMs)).2.durationHalfDays ≤ 0 ∧
    (exitCore seededState
        { id := 9, plate_number := "测A00009", has_package := false,
          entry_time := seedNow, exit_time := none, space_id := 20 }
        "测A00009" (seedNow - 3 * hourMs)).2.amount =
      (exitCore seededState
        { id := 9, plate_number := "测A00009", has_package := false,
          entry_time := seedNow, exit_time := none, space_id := 20 }
        "测A00009" (seedNow - 3 * hourMs)).2.durationHalfDays * 20 ∧
    (exitCore seededState
        { id := 9, plate_number := "测A00009", has_package := false,
          entry_time := seedNow, exit_time := none, space_id := 20 }
        "测A00009" (seedNow - 3 * hourMs)).2.amount ≤ 0 ∧
    (exitCore seededState
        { id := 9, plate_number := "测A00009", has_package := false,
          entry_time := seedNow, exit_time := none, space_id := 20 }
        "测A00009" (seedNow - 3 * hourMs)).1.logs = seededState.logs ++
      [{ plate_number := "测A00009", action := "exit", timestamp := seedNow - 3 * hourMs,
         amount := (exitCore seededState
            { id := 9, plate_number := "测A00009", has_package := false,
              entry_time := seedNow, exit_time := none, space_id := 20 }
            "测A00009" (seedNow - 3 * hourMs)).2.amount,
         duration_half_days := (exitCore seededState
            { id := 9, plate_number := "测A00009", has_package := false,
              entry_time := seedNow, exit_time := none, space_id := 20 }
            "测A00009" (seedNow - 3 * hourMs)).2.durationHalfDays }] :=
  c10_negative_fee_amended seededState
    { id := 9, plate_number := "测A00009", has_package := false,
      entry_time := seedNow, exit_time := none, space_id := 20 }
    "测A00009" (seedNow - 3 * hourMs) rfl (by decide)

end CarParkAdmin
